import Mathlib

/-!
Shallow embedding of `src/vs/editor/contrib/dropIntoEditor/browser/dropIntoEditorContribution.ts`
(the `DropIntoEditorController`): dropping external content onto the editor,
resolving the drop through registered providers, applying the chosen edit, and
offering an alternative-edit picker afterwards.

Pure data is translated directly from the TypeScript; the external collaborators
(bulk edit service, snippet parser, undo, marker recovery, the two drag-data
conversion helpers) are either universally-quantified parameters or definitions
explicitly modelled from the specification, as noted in their doc comments.
-/

namespace DropIntoEditor

/-- A position in the editor (`IPosition`). -/
structure Position where
  lineNumber : Nat
  column : Nat
deriving DecidableEq, Repr

/-- A range in the editor (`Range`). -/
structure Range where
  startLineNumber : Nat
  startColumn : Nat
  endLineNumber : Nat
  endColumn : Nat
deriving DecidableEq, Repr

/-- `Range.fromPositions(position)` with a single argument: the collapsed range
whose start and end are both the given position. -/
def Range.fromPositions (p : Position) : Range :=
  { startLineNumber := p.lineNumber
    startColumn := p.column
    endLineNumber := p.lineNumber
    endColumn := p.column }

/-- A range is empty when its start and end coincide (`Range.isEmpty`). -/
def Range.isEmpty (r : Range) : Prop :=
  r.startLineNumber = r.endLineNumber ∧ r.startColumn = r.endColumn

instance (r : Range) : Decidable r.isEmpty := by
  unfold Range.isEmpty; infer_instance

/-- The uniform drag payload (`VSDataTransfer`): a keyed mapping from mime-type
to payload value, modelled as an association list. -/
def VSDataTransfer := List (String × String)
deriving DecidableEq

/-- `VSDataTransfer.size`: number of entries. -/
def VSDataTransfer.size (dt : VSDataTransfer) : Nat :=
  List.length dt

/-- `VSDataTransfer.has(mime)`: whether a mime-type is present as a key. -/
def VSDataTransfer.has (dt : VSDataTransfer) (mime : String) : Bool :=
  List.any dt (fun e => e.1 = mime)

/-- The fresh empty payload (`new VSDataTransfer()`). -/
def VSDataTransfer.empty : VSDataTransfer := []

/-- The native drag payload carried by a `DragEvent` before conversion to a
`VSDataTransfer`. -/
structure NativeDataTransfer where
  items : List (String × String)
deriving DecidableEq

/-- A native `DragEvent`: it may or may not carry a `dataTransfer`. -/
structure DragEvent where
  dataTransfer : Option NativeDataTransfer
deriving DecidableEq

/-- The text a drop inserts: either literal text (`insertText: string`) or a
structured snippet (`insertText: { snippet: string }`). -/
inductive InsertText where
  | literal (text : String)
  | structuredSnippet (snippet : String)
deriving DecidableEq, Repr

/-- One entry of a workspace edit: either a resource text edit (as built by
`new ResourceTextEdit(uri, { range, text, insertAsSnippet })`) or some other
kind of resource edit carried through verbatim from a provider. -/
inductive ResourceEdit where
  | textEdit (uri : String) (range : Range) (text : String) (insertAsSnippet : Bool)
  | other (id : Nat)
deriving DecidableEq, Repr

/-- A workspace edit (`WorkspaceEdit`): an ordered list of resource edits. -/
structure WorkspaceEdit where
  edits : List ResourceEdit
deriving DecidableEq, Repr

/-- One candidate edit proposed by a provider (`DocumentOnDropEdit`):
insertion text plus an optional attached secondary workspace edit. -/
structure DocumentOnDropEdit where
  insertText : InsertText
  additionalEdit : Option WorkspaceEdit
deriving DecidableEq, Repr

/-- The editor's text model. `contents` is the document text; `undoStack`
holds the prior document states, most recent first, so that one undo step
reverts exactly one applied edit group. -/
structure TextModel where
  uri : String
  contents : String
  undoStack : List String
deriving DecidableEq, Repr

/-- Modelled from the spec: the Document/Editor surface's undo operation
« reverts exactly one previously applied edit group » (the code calls the
external `model.undo()`). Restores the most recent prior state. -/
def TextModel.undo (m : TextModel) : TextModel :=
  match m.undoStack with
  | [] => m
  | prev :: rest => { m with contents := prev, undoStack := rest }

/-- A registered drop-edit provider (`DocumentOnDropEditProvider`): an optional
mime-type filter and a resolution function returning at most one candidate. -/
structure DocumentOnDropEditProvider where
  dropMimeTypes : Option (List String)
  provideDocumentOnDropEdits : TextModel → Position → VSDataTransfer → Option DocumentOnDropEdit

/-- `coalesce` from `vs/base/common/arrays`: drops null entries, keeping order. -/
def coalesce {α : Type} (xs : List (Option α)) : List α :=
  List.filterMap id xs

/-- Modelled from the spec: the snippet grammar's special characters, the ones
`SnippetParser.escape` (outside this excerpt) must protect so that « literal
braces/dollar-signs don't get misinterpreted »: the placeholder introducer, the
placeholder terminator, and the escape character itself. -/
def isSnippetSpecial (c : Char) : Bool :=
  c = '$' || c = '}' || c = '\\'

/-- Modelled from the spec: `SnippetParser.escape` (outside this excerpt),
« escaping literal text into snippet syntax »: every snippet-special character
is preceded by a backslash. -/
def escapeChars : List Char → List Char
  | [] => []
  | c :: cs =>
    if isSnippetSpecial c then '\\' :: c :: escapeChars cs
    else c :: escapeChars cs

/-- Modelled from the spec: `SnippetParser.escape` lifted to strings. -/
def SnippetParser.escape (s : String) : String :=
  String.mk (escapeChars s.data)

/-- Modelled from the spec: reading a snippet template as pure literal text
(the snippet parser is outside this excerpt). A backslash-escaped special
character stands for itself; an unescaped `$` starts a placeholder, so the
template is not pure literal text and the read fails. -/
def snippetLiteralChars : List Char → Option (List Char)
  | [] => some []
  | c :: cs =>
    if c = '\\' then
      match cs with
      | [] => some ['\\']
      | d :: ds =>
        if isSnippetSpecial d then (snippetLiteralChars ds).map (fun r => d :: r)
        else (snippetLiteralChars ds).map (fun r => '\\' :: d :: r)
    else if c = '$' then none
    else (snippetLiteralChars cs).map (fun r => c :: r)

/-- Modelled from the spec: reading a snippet template as literal text, lifted
to strings. -/
def snippetLiteral (s : String) : Option String :=
  (snippetLiteralChars s.data).map String.mk

/-- The snippet text chosen for a candidate (line 145): a literal-text
candidate is escaped, a structured-snippet candidate is used verbatim. -/
def dropSnippetText (edit : DocumentOnDropEdit) : String :=
  match edit.insertText with
  | .literal text => SnippetParser.escape text
  | .structuredSnippet snippet => snippet

/-- The combined workspace edit (lines 146–155): the primary text insertion at
the collapsed drop range, in snippet mode, followed by the candidate's attached
secondary edits in their original order. -/
def combinedWorkspaceEdit (uri : String) (position : Position) (edit : DocumentOnDropEdit) : WorkspaceEdit :=
  { edits :=
      ResourceEdit.textEdit uri (Range.fromPositions position) (dropSnippetText edit) true
        :: (match edit.additionalEdit with
            | some additional => additional.edits
            | none => []) }

/-- What `PostDropWidgetManager.show` is invoked with (lines 171–174): the
anchor range and the `{ activeEditIndex, allEdits }` seed. -/
structure PostDropWidgetState where
  range : Range
  activeEditIndex : Nat
  allEdits : List DocumentOnDropEdit
deriving DecidableEq, Repr

/-- The external collaborators the controller calls into, abstracted as
parameters: the two drag-data conversion helpers from `vs/editor/browser/dnd`,
the bulk edit service (returning the updated model and `isApplied`), the
tracked decoration's recovered range read back after the apply, and the
`showDropSelector` configuration value. -/
structure DropExternals where
  toVSDataTransfer : NativeDataTransfer → VSDataTransfer
  addExternalEditorsDropData : VSDataTransfer → DragEvent → VSDataTransfer
  bulkEditApply : WorkspaceEdit → TextModel → TextModel × Bool
  getDecorationRange : Option Range
  showDropSelector : String

/-- The observable result of one `applyDropResult` invocation: the model after
the call, whether the bulk edit reported `isApplied`, and the post-drop widget
invocation, if any. -/
structure ApplyResult where
  model : Option TextModel
  applied : Bool
  widget : Option PostDropWidgetState
deriving DecidableEq, Repr

/-- `applyDropResult` (lines 134–180): abandon when the model is gone or the
index is out of range; otherwise build the combined edit, apply it through the
bulk edit service, recover the tracked range, and show the post-drop widget
exactly when the edit was applied, more than one candidate exists, and the
`showDropSelector` option is `afterDrop`. -/
def applyDropResult (ext : DropExternals) (editorModel : Option TextModel) (position : Position)
    (selectedEditIndex : Nat) (allEdits : List DocumentOnDropEdit) : ApplyResult :=
  match editorModel with
  | none => { model := none, applied := false, widget := none }
  | some model =>
    match allEdits[selectedEditIndex]? with
    | none => { model := some model, applied := false, widget := none }
    | some edit =>
      let applyOut := ext.bulkEditApply (combinedWorkspaceEdit model.uri position edit) model
      let editRange := ext.getDecorationRange
      let widget :=
        if applyOut.2 = true ∧ 1 < allEdits.length ∧ ext.showDropSelector = "afterDrop" then
          some { range := editRange.getD (Range.fromPositions position)
                 activeEditIndex := selectedEditIndex
                 allEdits := allEdits }
        else none
      { model := some applyOut.1, applied := applyOut.2, widget := widget }

/-- The post-drop widget's selection callback (lines 174–177): undo the
just-applied edit as one undo step, then re-run `applyDropResult` with the new
index, the same position, the same candidate list. -/
def postDropWidgetOnSelect (ext : DropExternals) (position : Position)
    (allEdits : List DocumentOnDropEdit) (model : TextModel) (newEditIndex : Nat) : ApplyResult :=
  applyDropResult ext (some model.undo) position newEditIndex allEdits

/-- Modelled from the spec: the external Bulk Edit Applier « applies the
combined edit transactionally ... as one atomic unit », as one undoable edit
group. `interp` stands for the excluded bulk-edit engine mapping a workspace
edit over document text; an application pushes the prior contents onto the
undo stack and reports success. -/
def bulkApplySpec (interp : WorkspaceEdit → String → String)
    (we : WorkspaceEdit) (m : TextModel) : TextModel × Bool :=
  ({ m with contents := interp we m.contents, undoStack := m.contents :: m.undoStack }, true)

/-- The `_currentOperation` slot's payload: the operation id and the
cancellation state of its cancelable promise. -/
structure OperationHandle where
  id : Nat
  promiseCancelled : Bool
deriving DecidableEq, Repr

/-- The controller's mutable fields: `operationIdPool`, the
`_currentOperation` slot, and the inline progress indicator (shown at a
position, or cleared). -/
structure ControllerState where
  operationIdPool : Nat
  currentOperation : Option OperationHandle
  progress : Option Position
deriving DecidableEq, Repr

/-- The externally visible one-off actions of the synchronous prefix of
`onDropIntoEditor`: whether the previous operation's promise was cancelled,
whether focus and caret moved to the drop position, and the operation id
allocated from the pool, if any. -/
structure SyncEffects where
  cancelledPrevious : Bool
  movedCursor : Bool
  allocatedId : Option Nat
deriving DecidableEq, Repr

/-- The synchronous prefix of `onDropIntoEditor` (lines 59–77 and 121): the
guard returns untouched when the event has no `dataTransfer` or the editor has
no model; otherwise the previous operation is cancelled, the progress
indicator is cleared, focus and caret move, a fresh id is allocated, the
pipeline starts (setting the progress indicator at the drop position before
its first suspension), and the slot is overwritten with the new operation. -/
def onDropIntoEditorSync (st : ControllerState) (hasModel : Bool) (position : Position)
    (dragEvent : DragEvent) : ControllerState × SyncEffects :=
  if dragEvent.dataTransfer.isNone = true ∨ hasModel = false then
    (st, { cancelledPrevious := false, movedCursor := false, allocatedId := none })
  else
    let operationId := st.operationIdPool
    ({ operationIdPool := operationId + 1
       currentOperation := some { id := operationId, promiseCancelled := false }
       progress := some position },
     { cancelledPrevious := st.currentOperation.isSome
       movedCursor := true
       allocatedId := some operationId })

/-- How a drop operation's promise body finished: normally, by cancellation,
or with an error propagating out of the `try` block. -/
inductive OpOutcome where
  | success
  | cancelled
  | error
deriving DecidableEq, Repr

/-- The result of the `finally` block: whether the operation's
`EditorStateCancellationTokenSource` was disposed, and the controller state it
leaves behind. -/
structure FinalizeResult where
  tokenSourceDisposed : Bool
  state : ControllerState
deriving DecidableEq, Repr

/-- The `finally` block of the drop pipeline (lines 111–118), which runs on
every completion path — `outcome` records which one. It disposes the token
source first, then clears the progress indicator and the `_currentOperation`
slot only when this operation's id is still the one stored in the slot. -/
def finalizeDropOperation (outcome : OpOutcome) (operationId : Nat)
    (st : ControllerState) : FinalizeResult :=
  { tokenSourceDisposed :=
      match outcome with
      | .success => true
      | .cancelled => true
      | .error => true
    state :=
      if st.currentOperation.map OperationHandle.id = some operationId then
        { st with progress := none, currentOperation := none }
      else st }

/-- `extractDataTransferData` (lines 124–132): an event without `dataTransfer`
yields the empty payload; otherwise the native payload is converted and
enriched with external-editor drop data. -/
def extractDataTransferData (ext : DropExternals) (dragEvent : DragEvent) : VSDataTransfer :=
  match dragEvent.dataTransfer with
  | none => VSDataTransfer.empty
  | some dt => ext.addExternalEditorsDropData (ext.toVSDataTransfer dt) dragEvent

/-- The cancellation observations the cooperative pipeline makes at its three
checkpoints: after extraction (line 81), whether `raceCancellation` delivered
the fan-out results rather than the token winning the race (line 100), and the
post-fan-out check (line 103). -/
structure AsyncEnv where
  cancelAfterExtract : Bool
  raceDelivered : Bool
  cancelAfterRace : Bool
deriving DecidableEq, Repr

/-- The observable result of one run of the drop pipeline body: the providers
whose resolution was invoked, the coalesced candidate list handed to
`applyDropResult` (none when that call was never reached), the document model
afterwards, whether an edit was applied, and the widget invocation, if any. -/
structure DropOutcome where
  invoked : List DocumentOnDropEditProvider
  candidates : Option (List DocumentOnDropEdit)
  model : Option TextModel
  applied : Bool
  widget : Option PostDropWidgetState

/-- The `try` block of the drop pipeline (lines 79–110): extract the payload;
abandon on an empty payload or a cancelled token; re-fetch the model; filter
the registered providers by declared mime-type interest; fan out to all
selected providers; abandon when the token won the race or is found cancelled
afterwards; otherwise coalesce the results and apply candidate 0. -/
def runDropOperationBody (ext : DropExternals) (env : AsyncEnv)
    (providersOrdered : List DocumentOnDropEditProvider)
    (editorModel : Option TextModel) (position : Position) (dragEvent : DragEvent) : DropOutcome :=
  let ourDataTransfer := extractDataTransferData ext dragEvent
  if ourDataTransfer.size = 0 ∨ env.cancelAfterExtract = true then
    { invoked := [], candidates := none, model := editorModel, applied := false, widget := none }
  else
    match editorModel with
    | none => { invoked := [], candidates := none, model := none, applied := false, widget := none }
    | some model =>
      let providers := providersOrdered.filter (fun provider =>
        match provider.dropMimeTypes with
        | none => true
        | some mimes => mimes.any (fun mime => ourDataTransfer.has mime))
      let results := providers.map (fun provider =>
        provider.provideDocumentOnDropEdits model position ourDataTransfer)
      let possibleDropEdits : Option (List (Option DocumentOnDropEdit)) :=
        if env.raceDelivered = true then some results else none
      if env.cancelAfterRace = true then
        { invoked := providers, candidates := none, model := some model
          applied := false, widget := none }
      else
        match possibleDropEdits with
        | some edits =>
          let res := applyDropResult ext (some model) position 0 (coalesce edits)
          { invoked := providers, candidates := some (coalesce edits)
            model := res.model, applied := res.applied, widget := res.widget }
        | none =>
          { invoked := providers, candidates := none, model := some model
            applied := false, widget := none }

/-- Spec-side provider selection, written from the specification's words:
keep a provider when it declares no mime-type filter, or when at least one of
its declared mime-types is present as a key in the payload. -/
def specSelectsProvider (dt : VSDataTransfer) (provider : DocumentOnDropEditProvider) : Bool :=
  match provider.dropMimeTypes with
  | none => true
  | some mimes => mimes.any (fun mime => dt.has mime)

/-- A concrete document model used by the witnesses below. -/
def sampleModel : TextModel :=
  { uri := "file:a.txt", contents := "hello", undoStack := [] }

/-- A concrete drop position used by the witnesses below. -/
def samplePosition : Position :=
  { lineNumber := 1, column := 2 }

/-- A concrete drag event carrying a plain-text payload. -/
def sampleDragEvent : DragEvent :=
  { dataTransfer := some { items := [("text/plain", "dropped")] } }

/-- A concrete literal-text candidate. -/
def sampleEditA : DocumentOnDropEdit :=
  { insertText := InsertText.literal "A", additionalEdit := none }

/-- A concrete structured-snippet candidate. -/
def sampleEditB : DocumentOnDropEdit :=
  { insertText := InsertText.structuredSnippet "B$0", additionalEdit := none }

/-- A provider interested in `text/plain`, returning candidate A. -/
def sampleProviderPlain : DocumentOnDropEditProvider :=
  { dropMimeTypes := some ["text/plain"]
    provideDocumentOnDropEdits := fun _ _ _ => some sampleEditA }

/-- A provider with no mime-type filter, returning candidate B. -/
def sampleProviderAll : DocumentOnDropEditProvider :=
  { dropMimeTypes := none
    provideDocumentOnDropEdits := fun _ _ _ => some sampleEditB }

/-- A provider interested only in `text/uri-list`, filtered out by a
plain-text payload. -/
def sampleProviderUri : DocumentOnDropEditProvider :=
  { dropMimeTypes := some ["text/uri-list"]
    provideDocumentOnDropEdits := fun _ _ _ => some sampleEditA }

/-- An unfiltered provider that returns a null result. -/
def sampleProviderSilent : DocumentOnDropEditProvider :=
  { dropMimeTypes := none
    provideDocumentOnDropEdits := fun _ _ _ => none }

/-- The registry order used by the witnesses below. -/
def sampleProviders : List DocumentOnDropEditProvider :=
  [sampleProviderPlain, sampleProviderAll, sampleProviderUri, sampleProviderSilent]

/-- A concrete text-edit engine: append the primary edit's text. -/
def sampleInterp : WorkspaceEdit → String → String :=
  fun we s =>
    match we.edits with
    | ResourceEdit.textEdit _ _ text _ :: _ => s ++ text
    | _ => s

/-- Concrete externals: identity drag-data conversion, the spec-modelled bulk
edit applier over `sampleInterp`, a vanished marker range, and the
`afterDrop` selector configuration. -/
def sampleExt : DropExternals :=
  { toVSDataTransfer := fun dt => dt.items
    addExternalEditorsDropData := fun dt _ => dt
    bulkEditApply := bulkApplySpec sampleInterp
    getDecorationRange := none
    showDropSelector := "afterDrop" }

/-- An async environment in which no cancellation is ever observed. -/
def quietEnv : AsyncEnv :=
  { cancelAfterExtract := false, raceDelivered := true, cancelAfterRace := false }

/-- An async environment whose token is found cancelled right after the
provider fan-out delivered. -/
def cancelEnv : AsyncEnv :=
  { cancelAfterExtract := false, raceDelivered := true, cancelAfterRace := true }

/-- Unfolding equation for `snippetLiteralChars` on a cons cell. -/
theorem snippetLiteralChars_cons (c : Char) (cs : List Char) :
    snippetLiteralChars (c :: cs) =
      (if c = '\\' then
        match cs with
        | [] => some ['\\']
        | d :: ds =>
          if isSnippetSpecial d then (snippetLiteralChars ds).map (fun r => d :: r)
          else (snippetLiteralChars ds).map (fun r => '\\' :: d :: r)
      else if c = '$' then none
      else (snippetLiteralChars cs).map (fun r => c :: r)) := by
  rw [snippetLiteralChars.eq_def]

/-- Escaping then reading back as literal text is the identity on character
lists: every snippet-special character comes out literal again. -/
theorem snippetLiteralChars_escapeChars (l : List Char) :
    snippetLiteralChars (escapeChars l) = some l := by
  induction l with
  | nil => rfl
  | cons c cs ih =>
    by_cases hc : isSnippetSpecial c = true
    · simp [escapeChars, hc, snippetLiteralChars_cons, ih]
    · have h1 : ¬ c = '$' := by
        intro h; subst h; simp [isSnippetSpecial] at hc
      have h2 : ¬ c = '\\' := by
        intro h; subst h; simp [isSnippetSpecial] at hc
      simp [escapeChars, hc, snippetLiteralChars_cons, h1, h2, ih]

/-- Coalescing the mapped provider results is the same as filterMap-ing the
resolution function over the providers. -/
theorem coalesce_map_eq_filterMap {α β : Type} (f : α → Option β) (l : List α) :
    coalesce (l.map f) = l.filterMap f := by
  simp [coalesce, List.filterMap_map]

/-- C1: for every drop operation, finalization runs on every completion path
(success, cancellation, error): it disposes the operation's token source
unconditionally; when the completing operation's id is the one stored in the
current-operation slot it clears the progress indicator and the slot; and when
it is not — the operation was superseded — it leaves the controller state,
hence any newer operation's state, entirely unmodified. -/
theorem finalize_disposes_and_clears_iff_current (outcome : OpOutcome) (operationId : Nat)
    (st : ControllerState) :
    (finalizeDropOperation outcome operationId st).tokenSourceDisposed = true
    ∧ (st.currentOperation.map OperationHandle.id = some operationId →
        (finalizeDropOperation outcome operationId st).state.progress = none
        ∧ (finalizeDropOperation outcome operationId st).state.currentOperation = none)
    ∧ (st.currentOperation.map OperationHandle.id ≠ some operationId →
        (finalizeDropOperation outcome operationId st).state = st) := by
  refine ⟨?_, ?_, ?_⟩
  · cases outcome <;> rfl
  · intro h
    simp [finalizeDropOperation, h]
  · intro h
    simp [finalizeDropOperation, h]

/-- Witness for C1 at concrete inputs: a completing operation whose id 7 still
occupies the slot clears the state, and a superseded completion with id 7
against a slot holding id 9 changes nothing. -/
theorem finalize_disposes_and_clears_iff_current_witness :
    (finalizeDropOperation OpOutcome.error 7
        { operationIdPool := 8, currentOperation := some { id := 7, promiseCancelled := false }
          progress := some { lineNumber := 1, column := 1 } }).state.progress = none
    ∧ (finalizeDropOperation OpOutcome.cancelled 7
        { operationIdPool := 10, currentOperation := some { id := 9, promiseCancelled := false }
          progress := some { lineNumber := 1, column := 1 } }).state =
      { operationIdPool := 10, currentOperation := some { id := 9, promiseCancelled := false }
        progress := some { lineNumber := 1, column := 1 } } := by
  constructor
  · exact ((finalize_disposes_and_clears_iff_current OpOutcome.error 7
      { operationIdPool := 8, currentOperation := some { id := 7, promiseCancelled := false }
        progress := some { lineNumber := 1, column := 1 } }).2.1 (by decide)).1
  · exact (finalize_disposes_and_clears_iff_current OpOutcome.cancelled 7
      { operationIdPool := 10, currentOperation := some { id := 9, promiseCancelled := false }
        progress := some { lineNumber := 1, column := 1 } }).2.2 (by decide)

/-- C6: the combined workspace edit is exactly the primary text-insertion edit
at the drop position with the chosen candidate's text, followed by the
candidate's attached secondary edit's sub-edits, if any, in their original
order. -/
theorem combined_edit_is_primary_then_secondary (uri : String) (position : Position)
    (edit : DocumentOnDropEdit) :
    (combinedWorkspaceEdit uri position edit).edits =
      ResourceEdit.textEdit uri (Range.fromPositions position) (dropSnippetText edit) true
        :: (edit.additionalEdit.map WorkspaceEdit.edits).getD [] := by
  cases edit with
  | mk insertText additionalEdit => cases additionalEdit <;> rfl

/-- C7: a literal-text candidate's inserted text is escaped into snippet
syntax, and reading the escaped template back as literal text reproduces the
original string exactly — snippet-special characters end up literal; a
structured-snippet candidate's template is used verbatim, unescaped. -/
theorem literal_escape_roundtrip_snippet_verbatim (s t : String) (ae : Option WorkspaceEdit) :
    dropSnippetText { insertText := InsertText.literal s, additionalEdit := ae } =
      SnippetParser.escape s
    ∧ snippetLiteral (dropSnippetText { insertText := InsertText.literal s, additionalEdit := ae }) =
      some s
    ∧ dropSnippetText { insertText := InsertText.structuredSnippet t, additionalEdit := ae } = t := by
  refine ⟨rfl, ?_, rfl⟩
  show (snippetLiteralChars (String.mk (escapeChars s.data)).data).map String.mk = some s
  rw [show (String.mk (escapeChars s.data)).data = escapeChars s.data from rfl,
    snippetLiteralChars_escapeChars]
  rfl

/-- C8: a drag event without `dataTransfer` extracts to the empty payload, and
whenever the extracted payload is empty the pipeline short-circuits: no
provider is invoked, no candidate list is produced, no edit is applied, and
the document is unchanged. -/
theorem empty_payload_short_circuits (ext : DropExternals) (env : AsyncEnv)
    (providersOrdered : List DocumentOnDropEditProvider) (editorModel : Option TextModel)
    (position : Position) (dragEvent : DragEvent)
    (hempty : (extractDataTransferData ext dragEvent).size = 0) :
    extractDataTransferData ext { dataTransfer := none } = VSDataTransfer.empty
    ∧ (runDropOperationBody ext env providersOrdered editorModel position dragEvent).invoked = []
    ∧ (runDropOperationBody ext env providersOrdered editorModel position dragEvent).candidates = none
    ∧ (runDropOperationBody ext env providersOrdered editorModel position dragEvent).model = editorModel
    ∧ (runDropOperationBody ext env providersOrdered editorModel position dragEvent).applied = false
    ∧ (runDropOperationBody ext env providersOrdered editorModel position dragEvent).widget = none := by
  refine ⟨rfl, ?_⟩
  unfold runDropOperationBody
  rw [if_pos (Or.inl hempty)]
  exact ⟨rfl, rfl, rfl, rfl, rfl⟩

/-- C3: whenever the cancellation token is observed fired before the
edit-apply step — at the post-extraction checkpoint, by winning the race
against the provider fan-out, or at the post-fan-out checkpoint — no edit is
applied: the candidate list is dropped, no widget is shown, and the document
model is byte-for-byte the one the operation started with. -/
theorem cancellation_before_apply_leaves_document_unchanged (ext : DropExternals) (env : AsyncEnv)
    (providersOrdered : List DocumentOnDropEditProvider) (editorModel : Option TextModel)
    (position : Position) (dragEvent : DragEvent)
    (hcancel : env.cancelAfterExtract = true ∨ env.raceDelivered = false ∨ env.cancelAfterRace = true) :
    (runDropOperationBody ext env providersOrdered editorModel position dragEvent).model = editorModel
    ∧ (runDropOperationBody ext env providersOrdered editorModel position dragEvent).applied = false
    ∧ (runDropOperationBody ext env providersOrdered editorModel position dragEvent).candidates = none
    ∧ (runDropOperationBody ext env providersOrdered editorModel position dragEvent).widget = none := by
  obtain ⟨cae, rd, car⟩ := env
  cases editorModel <;> cases cae <;> cases rd <;> cases car <;>
    by_cases h0 : (extractDataTransferData ext dragEvent).size = 0 <;>
    simp_all [runDropOperationBody]


/-- C2: whenever the fan-out produces a candidate list, that list is exactly
the non-null results of those providers that declare no mime-type filter or
declare at least one mime-type present as a key in the payload, in registry
order, null results dropped. -/
theorem fanout_candidates_are_selected_provider_results (ext : DropExternals) (env : AsyncEnv)
    (providersOrdered : List DocumentOnDropEditProvider) (model : TextModel)
    (position : Position) (dragEvent : DragEvent) (cands : List DocumentOnDropEdit)
    (hc : (runDropOperationBody ext env providersOrdered (some model) position dragEvent).candidates
      = some cands) :
    cands = (providersOrdered.filter (fun provider =>
        specSelectsProvider (extractDataTransferData ext dragEvent) provider)).filterMap
      (fun provider => provider.provideDocumentOnDropEdits model position
        (extractDataTransferData ext dragEvent)) := by
  obtain ⟨cae, rd, car⟩ := env
  cases cae <;> cases rd <;> cases car <;>
    by_cases h0 : (extractDataTransferData ext dragEvent).size = 0 <;>
    simp_all [runDropOperationBody, specSelectsProvider, coalesce_map_eq_filterMap]

/-- C4: the post-drop widget is shown exactly when the combined edit was
applied, more than one candidate exists, and `showDropSelector` equals
`afterDrop`; when shown it is anchored at the tracked marker's recovered
range, falling back to the drop position collapsed to a point, and seeded with
the full candidate list and the index just applied. -/
theorem widget_shown_iff_applied_multi_afterdrop (ext : DropExternals) (model : TextModel)
    (position : Position) (selectedEditIndex : Nat) (allEdits : List DocumentOnDropEdit)
    (edit : DocumentOnDropEdit) (hidx : allEdits[selectedEditIndex]? = some edit) :
    (applyDropResult ext (some model) position selectedEditIndex allEdits).widget =
      (if (ext.bulkEditApply (combinedWorkspaceEdit model.uri position edit) model).2 = true
          ∧ 1 < allEdits.length ∧ ext.showDropSelector = "afterDrop"
        then some { range := ext.getDecorationRange.getD (Range.fromPositions position)
                    activeEditIndex := selectedEditIndex
                    allEdits := allEdits }
        else none) := by
  simp [applyDropResult, hidx]

/-- C5: selecting a different candidate index in the widget undoes the
just-applied edit as one undo step and re-runs the apply contract with the new
index, the same position, and the same candidate list; the result is identical
to applying the newly selected candidate directly from the pre-drop state. -/
theorem picker_reselect_equals_direct_apply
    (interp : WorkspaceEdit → String → String) (ext : DropExternals)
    (hbulk : ext.bulkEditApply = bulkApplySpec interp)
    (m m1 : TextModel) (position : Position) (i j : Nat)
    (allEdits : List DocumentOnDropEdit) (e : DocumentOnDropEdit)
    (hi : allEdits[i]? = some e)
    (hm1 : (applyDropResult ext (some m) position i allEdits).model = some m1) :
    postDropWidgetOnSelect ext position allEdits m1 j =
      applyDropResult ext (some m) position j allEdits := by
  have hm1' : m1 = { m with
      contents := interp (combinedWorkspaceEdit m.uri position e) m.contents
      undoStack := m.contents :: m.undoStack } := by
    simp [applyDropResult, hi, hbulk, bulkApplySpec] at hm1
    exact hm1.symm
  have hundo : m1.undo = m := by
    subst hm1'
    cases m
    rfl
  unfold postDropWidgetOnSelect
  rw [hundo]

/-- C9: when the editor has no model, the drop handler returns at its guard as
a complete no-op: the controller state (id pool, current-operation slot,
progress indicator) is unchanged, the previous operation is not cancelled, the
cursor does not move, and no operation id is allocated. -/
theorem no_model_drop_is_complete_noop (st : ControllerState) (position : Position)
    (dragEvent : DragEvent) :
    onDropIntoEditorSync st false position dragEvent =
      (st, { cancelledPrevious := false, movedCursor := false, allocatedId := none }) := by
  simp [onDropIntoEditorSync]

/-- C10: the primary edit of the combined workspace edit is a pure insertion:
its first entry targets the collapsed range at the drop position — an empty
range, so no existing text is replaced — and has `insertAsSnippet` set, for
literal-text and structured-snippet candidates alike. -/
theorem primary_edit_is_collapsed_snippet_insertion (uri : String) (position : Position)
    (edit : DocumentOnDropEdit) :
    (combinedWorkspaceEdit uri position edit).edits.head? =
      some (ResourceEdit.textEdit uri (Range.fromPositions position) (dropSnippetText edit) true)
    ∧ (Range.fromPositions position).isEmpty
    ∧ (Range.fromPositions position).startLineNumber = position.lineNumber
    ∧ (Range.fromPositions position).startColumn = position.column := by
  exact ⟨rfl, ⟨rfl, rfl⟩, rfl, rfl⟩

/-- Witness for C2 at concrete inputs: a plain-text drop over four registered
providers ends up with exactly the non-null results of the three applicable
ones, in order. -/
theorem fanout_candidates_are_selected_provider_results_witness :
    [sampleEditA, sampleEditB] =
      (sampleProviders.filter (fun provider =>
        specSelectsProvider (extractDataTransferData sampleExt sampleDragEvent) provider)).filterMap
        (fun provider => provider.provideDocumentOnDropEdits sampleModel samplePosition
          (extractDataTransferData sampleExt sampleDragEvent)) :=
  fanout_candidates_are_selected_provider_results sampleExt quietEnv sampleProviders sampleModel
    samplePosition sampleDragEvent [sampleEditA, sampleEditB] (by decide)

/-- Witness for C3 at concrete inputs: with the token observed cancelled right
after the fan-out, the document is unchanged and nothing is applied. -/
theorem cancellation_before_apply_leaves_document_unchanged_witness :
    (runDropOperationBody sampleExt cancelEnv sampleProviders (some sampleModel) samplePosition
        sampleDragEvent).model = some sampleModel
    ∧ (runDropOperationBody sampleExt cancelEnv sampleProviders (some sampleModel) samplePosition
        sampleDragEvent).applied = false :=
  ⟨(cancellation_before_apply_leaves_document_unchanged sampleExt cancelEnv sampleProviders
      (some sampleModel) samplePosition sampleDragEvent (Or.inr (Or.inr rfl))).1,
   (cancellation_before_apply_leaves_document_unchanged sampleExt cancelEnv sampleProviders
      (some sampleModel) samplePosition sampleDragEvent (Or.inr (Or.inr rfl))).2.1⟩

/-- Witness for C4 at concrete inputs: a successful two-candidate drop under
the `afterDrop` configuration shows the widget, anchored at the fallback
collapsed drop position since the marker range vanished, seeded with both
candidates and index 0. -/
theorem widget_shown_iff_applied_multi_afterdrop_witness :
    (applyDropResult sampleExt (some sampleModel) samplePosition 0
        [sampleEditA, sampleEditB]).widget =
      some { range := Range.fromPositions samplePosition
             activeEditIndex := 0
             allEdits := [sampleEditA, sampleEditB] } := by
  rw [widget_shown_iff_applied_multi_afterdrop sampleExt sampleModel samplePosition 0
    [sampleEditA, sampleEditB] sampleEditA rfl]
  rfl

/-- Witness for C5 at concrete inputs: after applying candidate 0 of two, the
widget callback selecting candidate 1 yields exactly the state of applying
candidate 1 directly from the pre-drop state. -/
theorem picker_reselect_equals_direct_apply_witness :
    postDropWidgetOnSelect sampleExt samplePosition [sampleEditA, sampleEditB]
        ((applyDropResult sampleExt (some sampleModel) samplePosition 0
            [sampleEditA, sampleEditB]).model.getD sampleModel) 1
      = applyDropResult sampleExt (some sampleModel) samplePosition 1
          [sampleEditA, sampleEditB] :=
  picker_reselect_equals_direct_apply sampleInterp sampleExt rfl sampleModel _ samplePosition 0 1
    [sampleEditA, sampleEditB] sampleEditA rfl rfl

/-- Witness for C8 at concrete inputs: a drag event with no `dataTransfer`
extracts to an empty payload, invokes no provider, applies nothing, and leaves
the document unchanged. -/
theorem empty_payload_short_circuits_witness :
    (runDropOperationBody sampleExt quietEnv sampleProviders (some sampleModel) samplePosition
        { dataTransfer := none }).invoked = []
    ∧ (runDropOperationBody sampleExt quietEnv sampleProviders (some sampleModel) samplePosition
        { dataTransfer := none }).model = some sampleModel
    ∧ (runDropOperationBody sampleExt quietEnv sampleProviders (some sampleModel) samplePosition
        { dataTransfer := none }).applied = false :=
  ⟨(empty_payload_short_circuits sampleExt quietEnv sampleProviders (some sampleModel)
      samplePosition { dataTransfer := none } rfl).2.1,
   (empty_payload_short_circuits sampleExt quietEnv sampleProviders (some sampleModel)
      samplePosition { dataTransfer := none } rfl).2.2.2.1,
   (empty_payload_short_circuits sampleExt quietEnv sampleProviders (some sampleModel)
      samplePosition { dataTransfer := none } rfl).2.2.2.2.1⟩

end DropIntoEditor
